import Mathlib

/-
Shallow embedding of the BlueBubbles server helper-batching subsystem:
the decode-request work items (MessageBatchItem), the batch state machine
(MessageBatch), the batch dispatcher (UnarchiverBatcher), the one-shot
helper service (ObjCHelperService) and the persistent helper service
(SwiftHelperService).  TypeScript promise settlement is modelled as an
explicit `Option PromiseOutcome` field; opaque values (decoded bodies,
blobs) are type parameters; the external helper call is an explicit
`Except` parameter so that thrown exceptions are visible.
-/

set_option autoImplicit false

namespace BlueBubbles

/-- Batch lifecycle states, from objCHelperService/index.ts
(MessageBatchStatus). -/
inductive MessageBatchStatus where
  | FILLING
  | PENDING
  | PROCESSING
  | COMPLETED
  | FAILED
  deriving DecidableEq, Repr

/-- Settlement of a Node promise: resolved with a value (possibly
undefined, hence `Option V`) or rejected with an Error message. -/
inductive PromiseOutcome (V : Type) where
  | resolved (value : Option V)
  | rejected (reason : String)
  deriving DecidableEq, Repr

/-- MessageBatchItem from objCHelperService/MessageBatchItem.ts.
`body` is the attributedBody blob (`none` models a null/empty blob,
as tested by isNotEmpty); `finished` is the private terminal flag;
`outcome` is the settlement of the private completion promise
(`none` while still pending). -/
structure MessageBatchItem (V B : Type) where
  id : String
  body : Option B
  finished : Bool
  outcome : Option (PromiseOutcome V)
  deriving DecidableEq, Repr

namespace MessageBatchItem

variable {V B : Type}

/-- Constructor of MessageBatchItem: fresh id, non-terminal, promise
pending. -/
def create (id : String) (body : Option B) : MessageBatchItem V B :=
  { id := id, body := body, finished := false, outcome := none }

/-- The isComplete getter. -/
def isComplete (item : MessageBatchItem V B) : Bool :=
  item.finished

/-- complete(value): if already finished, no-op; otherwise mark finished
and resolve the promise with the value. -/
def complete (item : MessageBatchItem V B) (value : Option V) : MessageBatchItem V B :=
  if item.finished then item
  else { item with finished := true, outcome := some (PromiseOutcome.resolved value) }

/-- fail(reason): if already finished, no-op; otherwise mark finished
and reject the promise with the reason. -/
def fail (item : MessageBatchItem V B) (reason : String) : MessageBatchItem V B :=
  if item.finished then item
  else { item with finished := true, outcome := some (PromiseOutcome.rejected reason) }

/-- One call against an item: complete(value) or fail(reason). -/
inductive Call (V : Type) where
  | complete (value : Option V)
  | fail (reason : String)
  deriving DecidableEq, Repr

/-- Apply one call. -/
def applyCall (item : MessageBatchItem V B) : Call V → MessageBatchItem V B
  | Call.complete v => item.complete v
  | Call.fail e => item.fail e

/-- Apply a sequence of calls in order. -/
def applyCalls (item : MessageBatchItem V B) (calls : List (Call V)) : MessageBatchItem V B :=
  calls.foldl applyCall item

/-- The settlement produced by a call when it lands on a non-terminal
item. -/
def callOutcome : Call V → PromiseOutcome V
  | Call.complete v => PromiseOutcome.resolved v
  | Call.fail e => PromiseOutcome.rejected e

theorem applyCall_of_finished (item : MessageBatchItem V B) (h : item.finished = true)
    (c : Call V) : item.applyCall c = item := by
  cases c <;> simp [applyCall, complete, fail, h]

theorem applyCalls_of_finished (item : MessageBatchItem V B) (h : item.finished = true)
    (calls : List (Call V)) : item.applyCalls calls = item := by
  induction calls with
  | nil => rfl
  | cons c rest ih =>
      simp only [applyCalls, List.foldl_cons, applyCall_of_finished item h c]
      exact ih

theorem applyCall_finished_of_unfinished (item : MessageBatchItem V B)
    (h : item.finished = false) (c : Call V) : (item.applyCall c).finished = true := by
  cases c <;> simp [applyCall, complete, fail, h]

theorem applyCall_outcome_of_unfinished (item : MessageBatchItem V B)
    (h : item.finished = false) (c : Call V) :
    (item.applyCall c).outcome = some (callOutcome c) := by
  cases c <;> simp [applyCall, complete, fail, callOutcome, h]

end MessageBatchItem

/-- C6: the first complete/fail call on a non-terminal MessageBatchItem
marks it terminal and settles the promise with that call; every later
complete or fail call is a no-op, so the item never transitions again
and every awaiter observes that single settlement. -/
theorem C6_item_first_call_wins {V B : Type} (item : MessageBatchItem V B)
    (h : item.finished = false) (c : MessageBatchItem.Call V)
    (rest : List (MessageBatchItem.Call V)) :
    item.applyCalls (c :: rest) = item.applyCall c
      ∧ (item.applyCall c).finished = true
      ∧ (item.applyCalls (c :: rest)).outcome = some (MessageBatchItem.callOutcome c) := by
  have hfin := item.applyCall_finished_of_unfinished h c
  have hchain : item.applyCalls (c :: rest) = item.applyCall c := by
    simp only [MessageBatchItem.applyCalls, List.foldl_cons]
    exact (item.applyCall c).applyCalls_of_finished hfin rest
  refine ⟨hchain, hfin, ?_⟩
  rw [hchain]
  exact item.applyCall_outcome_of_unfinished h c

/-- Witness for C6 at a concrete item: one complete followed by a fail
and another complete leaves the first resolution in place. -/
theorem C6_item_first_call_wins_witness :
    let item : MessageBatchItem Nat Nat := MessageBatchItem.create "a" (some 1)
    let c := MessageBatchItem.Call.complete (V := Nat) (some 7)
    let rest := [MessageBatchItem.Call.fail (V := Nat) "late", c]
    item.applyCalls (c :: rest) = item.applyCall c
      ∧ (item.applyCall c).finished = true
      ∧ (item.applyCalls (c :: rest)).outcome = some (MessageBatchItem.callOutcome c) :=
  C6_item_first_call_wins (MessageBatchItem.create "a" (some 1)) rfl
    (MessageBatchItem.Call.complete (some 7))
    [MessageBatchItem.Call.fail "late", MessageBatchItem.Call.complete (some 7)]

/-- One entry of the helper response data list: an object with an id
and a (possibly absent) decoded body. -/
structure RespEntry (V : Type) where
  id : String
  body : Option V
  deriving DecidableEq, Repr

/-- The parsed top-level helper response; the data field may be absent
(undefined), which the code treats as an empty list. -/
structure HelperResponse (V : Type) where
  data : Option (List (RespEntry V))
  deriving DecidableEq, Repr

/-- The generic failure used for items the helper response did not
answer (MessageBatch.process, noResponseErr). -/
def noResponseErr : String := "No response from Helper Service"

/-- MessageBatch from objCHelperService/MessageBatch.ts (the evolution
whose items are MessageBatchItem values).  `timerActive` models the
fill-deadline setTimeout armed in the constructor and cancelled by
clearTimeout; `numListeners` is the length of the pendingListeners
array — each listener is the dispatcher drain-pass callback, so the
model records only how many listener invocations an operation makes. -/
structure MessageBatch (V B : Type) where
  id : String
  status : MessageBatchStatus
  items : List (MessageBatchItem V B)
  completedAt : Option Nat
  timerActive : Bool
  numListeners : Nat
  maxSize : Nat
  timeoutMs : Nat
  deriving DecidableEq, Repr

namespace MessageBatch

variable {V B : Type}

/-- Constructor: FILLING, empty items, fill-deadline timer armed. -/
def create (id : String) (maxSize timeoutMs numListeners : Nat) : MessageBatch V B :=
  { id := id, status := MessageBatchStatus.FILLING, items := [], completedAt := none,
    timerActive := true, numListeners := numListeners, maxSize := maxSize,
    timeoutMs := timeoutMs }

/-- The isFull getter: items.length >= maxSize. -/
def isFull (b : MessageBatch V B) : Bool :=
  decide (b.maxSize ≤ b.items.length)

/-- markReadyForProcessing: if already PENDING, return early (the
listeners were already notified); otherwise set PENDING, invoke every
pending listener, and clear the fill-deadline timer.  The second
component is the number of listener invocations performed. -/
def markReadyForProcessing (b : MessageBatch V B) : MessageBatch V B × Nat :=
  if b.status = MessageBatchStatus.PENDING then (b, 0)
  else ({ b with status := MessageBatchStatus.PENDING, timerActive := false },
        b.numListeners)

/-- addItem: push the item; if full afterwards, markReadyForProcessing. -/
def addItem (b : MessageBatch V B) (item : MessageBatchItem V B) :
    MessageBatch V B × Nat :=
  let b1 := { b with items := b.items ++ [item] }
  if b1.isFull then b1.markReadyForProcessing else (b1, 0)

/-- The fill-deadline timer firing: the runtime runs the setTimeout
callback (which calls markReadyForProcessing) only when the timer has
not been cleared. -/
def timerFire (b : MessageBatch V B) : MessageBatch V B × Nat :=
  if b.timerActive then b.markReadyForProcessing else (b, 0)

/-- rejectIncompleteItems: fail every item that is not complete with
the given reason. -/
def rejectIncompleteItems (b : MessageBatch V B) (reason : String) : MessageBatch V B :=
  { b with items := b.items.map (fun item =>
      if item.isComplete then item else item.fail reason) }

/-- The response-matching loop of process: for one response entry,
this.items.find(i => i.id === item.id) returns the first item with the
matching id and complete(item?.body) is called on it in place. -/
def completeFirstMatch : List (MessageBatchItem V B) → String → Option V →
    List (MessageBatchItem V B)
  | [], _, _ => []
  | i :: rest, eid, body =>
      if i.id = eid then i.complete body :: rest
      else i :: completeFirstMatch rest eid body

/-- The whole matching loop of process over result?.data ?? []. -/
def completeFromResponse (items : List (MessageBatchItem V B))
    (entries : List (RespEntry V)) : List (MessageBatchItem V B) :=
  entries.foldl (fun its e => completeFirstMatch its e.id e.body) items

/-- First half of process: status := PROCESSING, then the await of the
helper call suspends. -/
def processEnter (b : MessageBatch V B) : MessageBatch V B :=
  { b with status := MessageBatchStatus.PROCESSING }

/-- Second half of process, after the helper call settles.  The helper
outcome is explicit: ok carries the value bulkDeserializeAttributedBody
resolved with (possibly null), error models a thrown exception.  On ok,
match the response entries to items and finish COMPLETED; on error the
catch does nothing and the status stays FAILED.  Either way the
incomplete items are rejected with noResponseErr before completedAt
and the final status are written. -/
def processFinish (b : MessageBatch V B)
    (helperResult : Except String (Option (HelperResponse V))) (now : Nat) :
    MessageBatch V B :=
  let step :=
    match helperResult with
    | Except.ok result =>
        let entries := (result.bind HelperResponse.data).getD []
        (completeFromResponse b.items entries, MessageBatchStatus.COMPLETED)
    | Except.error _ => (b.items, MessageBatchStatus.FAILED)
  let b1 := rejectIncompleteItems { b with items := step.1 } noResponseErr
  { b1 with completedAt := some now, status := step.2 }

/-- process = enter (status := PROCESSING) then finish on the helper
outcome. -/
def process (b : MessageBatch V B)
    (helperResult : Except String (Option (HelperResponse V))) (now : Nat) :
    MessageBatch V B :=
  (b.processEnter).processFinish helperResult now

/-- flush(error): reject all incomplete items with the error and clear
the pending listeners; no status change. -/
def flush (b : MessageBatch V B) (error : String) : MessageBatch V B :=
  { b.rejectIncompleteItems error with numListeners := 0 }

end MessageBatch

namespace MessageBatchItem

variable {V B : Type}

@[simp] theorem complete_id (i : MessageBatchItem V B) (v : Option V) :
    (i.complete v).id = i.id := by
  unfold complete; split <;> rfl

@[simp] theorem fail_id (i : MessageBatchItem V B) (e : String) :
    (i.fail e).id = i.id := by
  unfold fail; split <;> rfl

@[simp] theorem complete_finished (i : MessageBatchItem V B) (v : Option V) :
    (i.complete v).finished = true := by
  unfold complete; split <;> simp_all

theorem complete_of_finished (i : MessageBatchItem V B) (h : i.finished = true)
    (v : Option V) : i.complete v = i := by
  simp [complete, h]

theorem complete_of_unfinished (i : MessageBatchItem V B) (h : i.finished = false)
    (v : Option V) :
    i.complete v = { i with finished := true,
                            outcome := some (PromiseOutcome.resolved v) } := by
  simp [complete, h]

theorem fail_of_unfinished (i : MessageBatchItem V B) (h : i.finished = false)
    (e : String) :
    i.fail e = { i with finished := true,
                        outcome := some (PromiseOutcome.rejected e) } := by
  simp [fail, h]

theorem complete_complete (i : MessageBatchItem V B) (v w : Option V) :
    (i.complete v).complete w = i.complete v :=
  complete_of_finished (i.complete v) (complete_finished i v) w

@[simp] theorem fail_finished (i : MessageBatchItem V B) (e : String) :
    (i.fail e).finished = true := by
  unfold fail; split <;> simp_all

end MessageBatchItem

/-- Looking up a response entry by an item id: the first entry of the
data list whose id matches, if any, and its body. -/
def respLookup {V : Type} (entries : List (RespEntry V)) (s : String) :
    Option (Option V) :=
  (entries.find? (fun e => e.id == s)).map RespEntry.body

/-- The per-item effect of the matching loop of process: an item whose
id has a response entry is completed with the first such entry body,
the others are untouched. -/
def itemResolve {V B : Type} (entries : List (RespEntry V))
    (i : MessageBatchItem V B) : MessageBatchItem V B :=
  match respLookup entries i.id with
  | some body => i.complete body
  | none => i

theorem respLookup_cons_self {V : Type} (e : RespEntry V) (es : List (RespEntry V))
    (s : String) (h : e.id = s) : respLookup (e :: es) s = some e.body := by
  simp [respLookup, List.find?_cons_of_pos, h]

theorem respLookup_cons_ne {V : Type} (e : RespEntry V) (es : List (RespEntry V))
    (s : String) (h : e.id ≠ s) : respLookup (e :: es) s = respLookup es s := by
  simp only [respLookup]
  rw [List.find?_cons_of_neg]
  simpa using h

theorem itemResolve_nil {V B : Type} (i : MessageBatchItem V B) :
    itemResolve [] i = i := rfl

theorem itemResolve_of_lookup_some {V B : Type} {entries : List (RespEntry V)}
    {i : MessageBatchItem V B} {body : Option V}
    (h : respLookup entries i.id = some body) :
    itemResolve entries i = i.complete body := by
  simp [itemResolve, h]

theorem itemResolve_of_lookup_none {V B : Type} {entries : List (RespEntry V)}
    {i : MessageBatchItem V B} (h : respLookup entries i.id = none) :
    itemResolve entries i = i := by
  simp [itemResolve, h]

theorem itemResolve_cons {V B : Type} (e : RespEntry V) (es : List (RespEntry V))
    (i : MessageBatchItem V B) :
    itemResolve (e :: es) i
      = itemResolve es (if i.id = e.id then i.complete e.body else i) := by
  by_cases h : i.id = e.id
  · rw [if_pos h, itemResolve_of_lookup_some (respLookup_cons_self e es i.id h.symm)]
    rcases hr : respLookup es (i.complete e.body).id with _ | body
    · rw [itemResolve_of_lookup_none hr]
    · rw [itemResolve_of_lookup_some hr, MessageBatchItem.complete_complete]
  · rw [if_neg h]
    have hrw : respLookup (e :: es) i.id = respLookup es i.id :=
      respLookup_cons_ne e es i.id (fun hc => h hc.symm)
    simp [itemResolve, hrw]

theorem map_resolve_step_of_not_mem {V B : Type} (l : List (MessageBatchItem V B))
    (eid : String) (body : Option V) (h : eid ∉ l.map MessageBatchItem.id) :
    l.map (fun i => if i.id = eid then i.complete body else i) = l := by
  induction l with
  | nil => rfl
  | cons i rest ih =>
      simp only [List.map_cons, List.mem_cons, not_or] at h
      simp only [List.map_cons]
      rw [if_neg (fun hc => h.1 hc.symm), ih h.2]

theorem completeFirstMatch_eq_map {V B : Type} (l : List (MessageBatchItem V B))
    (eid : String) (body : Option V) (hnd : (l.map MessageBatchItem.id).Nodup) :
    MessageBatch.completeFirstMatch l eid body
      = l.map (fun i => if i.id = eid then i.complete body else i) := by
  induction l with
  | nil => rfl
  | cons i rest ih =>
      simp only [List.map_cons, List.nodup_cons] at hnd
      by_cases h : i.id = eid
      · simp only [MessageBatch.completeFirstMatch, if_pos h, List.map_cons]
        rw [map_resolve_step_of_not_mem rest eid body (h ▸ hnd.1)]
      · simp only [MessageBatch.completeFirstMatch, if_neg h, List.map_cons]
        rw [ih hnd.2]

theorem completeFromResponse_eq_map {V B : Type} (entries : List (RespEntry V))
    (l : List (MessageBatchItem V B)) (hnd : (l.map MessageBatchItem.id).Nodup) :
    MessageBatch.completeFromResponse l entries = l.map (itemResolve entries) := by
  induction entries generalizing l with
  | nil =>
      simp only [MessageBatch.completeFromResponse, List.foldl_nil]
      have hmap : l.map (itemResolve ([] : List (RespEntry V))) = l :=
        (List.map_congr_left (fun i _ => itemResolve_nil i)).trans (List.map_id l)
      exact hmap.symm
  | cons e es ih =>
      simp only [MessageBatch.completeFromResponse, List.foldl_cons]
      rw [show (MessageBatch.completeFirstMatch l e.id e.body)
            = l.map (fun i => if i.id = e.id then i.complete e.body else i)
          from completeFirstMatch_eq_map l e.id e.body hnd]
      have hids : ((l.map (fun i => if i.id = e.id then i.complete e.body else i)).map
          MessageBatchItem.id) = l.map MessageBatchItem.id := by
        rw [List.map_map]
        exact List.map_congr_left (fun i _ => by by_cases h : i.id = e.id <;> simp [h])
      have hih := ih (l.map (fun i => if i.id = e.id then i.complete e.body else i))
        (by rw [hids]; exact hnd)
      rw [show ∀ (l0 : List (MessageBatchItem V B)),
            es.foldl (fun its e0 => MessageBatch.completeFirstMatch its e0.id e0.body) l0
              = MessageBatch.completeFromResponse l0 es from fun _ => rfl, hih,
        List.map_map]
      exact List.map_congr_left (fun i _ => by
        simp only [Function.comp_apply]
        exact (itemResolve_cons e es i).symm)

theorem process_ok_fields {V B : Type} (b : MessageBatch V B)
    (result : Option (HelperResponse V)) (now : Nat) :
    (b.process (Except.ok result) now).items
        = (MessageBatch.completeFromResponse b.items
            ((result.bind HelperResponse.data).getD [])).map
            (fun i => if i.isComplete then i else i.fail noResponseErr)
      ∧ (b.process (Except.ok result) now).status = MessageBatchStatus.COMPLETED
      ∧ (b.process (Except.ok result) now).completedAt = some now :=
  ⟨rfl, rfl, rfl⟩

theorem process_error_fields {V B : Type} (b : MessageBatch V B) (msg : String)
    (now : Nat) :
    (b.process (Except.error msg) now).items
        = b.items.map (fun i => if i.isComplete then i else i.fail noResponseErr)
      ∧ (b.process (Except.error msg) now).status = MessageBatchStatus.FAILED
      ∧ (b.process (Except.error msg) now).completedAt = some now :=
  ⟨rfl, rfl, rfl⟩

/-- C3: processing a batch against a helper response that answers only
a subset of the item ids completes each answered item with that entry
body, fails each unanswered item with the no-response error, both in
the same process resolution pass whose final status write is COMPLETED,
and leaves no item non-terminal. -/
theorem C3_subset_response_resolution {V B : Type} (b : MessageBatch V B)
    (entries : List (RespEntry V)) (now : Nat)
    (hnd : (b.items.map MessageBatchItem.id).Nodup)
    (hunf : ∀ i ∈ b.items, i.finished = false) :
    (b.process (Except.ok (some ⟨some entries⟩)) now).status = MessageBatchStatus.COMPLETED
    ∧ (b.process (Except.ok (some ⟨some entries⟩)) now).items
        = b.items.map (fun i =>
            match respLookup entries i.id with
            | some body => { i with finished := true,
                                    outcome := some (PromiseOutcome.resolved body) }
            | none => { i with finished := true,
                               outcome := some (PromiseOutcome.rejected noResponseErr) })
    ∧ ∀ i ∈ (b.process (Except.ok (some ⟨some entries⟩)) now).items,
        i.finished = true := by
  obtain ⟨hitems, hstatus, _⟩ := process_ok_fields b (some ⟨some entries⟩) now
  have hmid : (b.process (Except.ok (some ⟨some entries⟩)) now).items
      = b.items.map (fun i =>
          if (itemResolve entries i).isComplete then itemResolve entries i
          else (itemResolve entries i).fail noResponseErr) := by
    rw [hitems,
      show (((some (⟨some entries⟩ : HelperResponse V)).bind HelperResponse.data).getD [])
        = entries from rfl,
      completeFromResponse_eq_map entries b.items hnd, List.map_map]
    rfl
  have hpt : ∀ i ∈ b.items,
      (if (itemResolve entries i).isComplete then itemResolve entries i
        else (itemResolve entries i).fail noResponseErr)
      = (match respLookup entries i.id with
         | some body => { i with finished := true,
                                 outcome := some (PromiseOutcome.resolved body) }
         | none => { i with finished := true,
                            outcome := some (PromiseOutcome.rejected noResponseErr) }) := by
    intro i hi
    have hf := hunf i hi
    rcases hlook : respLookup entries i.id with _ | body
    · rw [itemResolve_of_lookup_none hlook]
      simp [MessageBatchItem.isComplete, hf, MessageBatchItem.fail_of_unfinished i hf, hlook]
    · rw [itemResolve_of_lookup_some hlook]
      simp [MessageBatchItem.isComplete, MessageBatchItem.complete_of_unfinished i hf, hlook]
  refine ⟨hstatus, ?_, ?_⟩
  · rw [hmid]
    exact List.map_congr_left hpt
  · rw [hmid]
    intro i hi
    rw [List.mem_map] at hi
    obtain ⟨j, _, rfl⟩ := hi
    by_cases hc : (itemResolve entries j).isComplete = true
    · simp only [if_pos hc]
      exact hc
    · simp only [if_neg hc]
      exact MessageBatchItem.fail_finished _ _

/-- Witness for C3 at a concrete batch of two items of which the
response answers only the first. -/
theorem C3_subset_response_resolution_witness :
    let b : MessageBatch Nat Nat :=
      { id := "batch", status := MessageBatchStatus.PENDING,
        items := [MessageBatchItem.create "a" (some 1), MessageBatchItem.create "c" (some 2)],
        completedAt := none, timerActive := false, numListeners := 1,
        maxSize := 2, timeoutMs := 10 }
    let entries : List (RespEntry Nat) := [⟨"a", some 5⟩]
    (b.process (Except.ok (some ⟨some entries⟩)) 100).status = MessageBatchStatus.COMPLETED
    ∧ (b.process (Except.ok (some ⟨some entries⟩)) 100).items
        = b.items.map (fun i =>
            match respLookup entries i.id with
            | some body => { i with finished := true,
                                    outcome := some (PromiseOutcome.resolved body) }
            | none => { i with finished := true,
                               outcome := some (PromiseOutcome.rejected noResponseErr) })
    ∧ ∀ i ∈ (b.process (Except.ok (some ⟨some entries⟩)) 100).items,
        i.finished = true :=
  C3_subset_response_resolution
    { id := "batch", status := MessageBatchStatus.PENDING,
      items := [MessageBatchItem.create "a" (some 1), MessageBatchItem.create "c" (some 2)],
      completedAt := none, timerActive := false, numListeners := 1,
      maxSize := 2, timeoutMs := 10 }
    [⟨"a", some 5⟩] 100 (by decide) (by decide)

/-- C5: for a FILLING batch with its fill-deadline timer armed, the
FILLING-to-PENDING transition happens exactly once even when both
triggers occur, in either order: the trigger that runs first invokes
every registered readiness observer exactly once (numListeners
invocations) and cancels the fill-deadline timer, and the other
trigger performs zero further invocations; a trigger on an already
PENDING batch is a no-op. -/
theorem C5_pending_exactly_once {V B : Type} (b : MessageBatch V B)
    (item : MessageBatchItem V B)
    (hfill : b.status = MessageBatchStatus.FILLING)
    (htimer : b.timerActive = true)
    (hfull : b.maxSize ≤ b.items.length + 1) :
    ((b.addItem item).1.status = MessageBatchStatus.PENDING
      ∧ (b.addItem item).2 = b.numListeners
      ∧ (b.addItem item).1.timerActive = false
      ∧ (b.addItem item).1.timerFire = ((b.addItem item).1, 0))
    ∧ ((b.timerFire).1.status = MessageBatchStatus.PENDING
      ∧ (b.timerFire).2 = b.numListeners
      ∧ (b.timerFire).1.timerActive = false
      ∧ ((b.timerFire).1.addItem item).2 = 0
      ∧ ((b.timerFire).1.addItem item).1.status = MessageBatchStatus.PENDING)
    ∧ (∀ c : MessageBatch V B, c.status = MessageBatchStatus.PENDING →
        c.markReadyForProcessing = (c, 0)) := by
  refine ⟨?_, ?_, ?_⟩
  · simp [MessageBatch.addItem, MessageBatch.isFull, MessageBatch.markReadyForProcessing,
      MessageBatch.timerFire, hfill, hfull]
  · simp [MessageBatch.timerFire, MessageBatch.addItem, MessageBatch.isFull,
      MessageBatch.markReadyForProcessing, hfill, htimer, hfull]
  · intro c hc
    simp [MessageBatch.markReadyForProcessing, hc]

/-- Witness for C5 at a concrete batch: capacity 1, one observer, both
triggers. -/
theorem C5_pending_exactly_once_witness :
    let b : MessageBatch Nat Nat := MessageBatch.create "b1" 1 10 1
    let item : MessageBatchItem Nat Nat := MessageBatchItem.create "i1" (some 2)
    ((b.addItem item).1.status = MessageBatchStatus.PENDING
      ∧ (b.addItem item).2 = b.numListeners
      ∧ (b.addItem item).1.timerActive = false
      ∧ (b.addItem item).1.timerFire = ((b.addItem item).1, 0))
    ∧ ((b.timerFire).1.status = MessageBatchStatus.PENDING
      ∧ (b.timerFire).2 = b.numListeners
      ∧ (b.timerFire).1.timerActive = false
      ∧ ((b.timerFire).1.addItem item).2 = 0
      ∧ ((b.timerFire).1.addItem item).1.status = MessageBatchStatus.PENDING)
    ∧ (∀ c : MessageBatch Nat Nat, c.status = MessageBatchStatus.PENDING →
        c.markReadyForProcessing = (c, 0)) :=
  C5_pending_exactly_once (MessageBatch.create "b1" 1 10 1)
    (MessageBatchItem.create "i1" (some 2)) rfl rfl (by decide)

/-- C8 counterexample: a batch whose helper call itself throws (modelled
by the error outcome "boom") does end FAILED, but its item is failed
with the generic no-response message, not with the underlying cause —
the catch branch of process does nothing and rejectIncompleteItems runs
with noResponseErr. -/
theorem C8_counterexample :
    let b : MessageBatch Nat Nat :=
      { id := "batch", status := MessageBatchStatus.PENDING,
        items := [MessageBatchItem.create "a" (some 1)],
        completedAt := none, timerActive := false, numListeners := 1,
        maxSize := 1, timeoutMs := 10 }
    (b.process (Except.error "boom") 50).status = MessageBatchStatus.FAILED
    ∧ (b.process (Except.error "boom") 50).items.map MessageBatchItem.outcome
        = [some (PromiseOutcome.rejected noResponseErr)]
    ∧ noResponseErr ≠ "boom" := by
  refine ⟨rfl, rfl, ?_⟩
  decide

/-- C8 amended: when the decode call itself errors, the batch ends
FAILED, but every previously non-terminal item is failed with the
generic no-response error, not with the underlying cause. -/
theorem C8_amended_helper_error_generic_failure {V B : Type} (b : MessageBatch V B)
    (msg : String) (now : Nat) (hunf : ∀ i ∈ b.items, i.finished = false) :
    (b.process (Except.error msg) now).status = MessageBatchStatus.FAILED
    ∧ (b.process (Except.error msg) now).items
        = b.items.map (fun i =>
            { i with finished := true,
                     outcome := some (PromiseOutcome.rejected noResponseErr) }) := by
  obtain ⟨hitems, hstatus, _⟩ := process_error_fields b msg now
  refine ⟨hstatus, ?_⟩
  rw [hitems]
  apply List.map_congr_left
  intro i hi
  have hf := hunf i hi
  simp [MessageBatchItem.isComplete, hf, MessageBatchItem.fail_of_unfinished i hf]

/-- Witness for the amended C8 at a concrete two-item batch. -/
theorem C8_amended_helper_error_generic_failure_witness :
    let b : MessageBatch Nat Nat :=
      { id := "batch", status := MessageBatchStatus.PENDING,
        items := [MessageBatchItem.create "a" (some 1), MessageBatchItem.create "c" none],
        completedAt := none, timerActive := false, numListeners := 1,
        maxSize := 2, timeoutMs := 10 }
    (b.process (Except.error "write failed") 60).status = MessageBatchStatus.FAILED
    ∧ (b.process (Except.error "write failed") 60).items
        = b.items.map (fun i =>
            { i with finished := true,
                     outcome := some (PromiseOutcome.rejected noResponseErr) }) :=
  C8_amended_helper_error_generic_failure
    { id := "batch", status := MessageBatchStatus.PENDING,
      items := [MessageBatchItem.create "a" (some 1), MessageBatchItem.create "c" none],
      completedAt := none, timerActive := false, numListeners := 1,
      maxSize := 2, timeoutMs := 10 }
    "write failed" 60 (by decide)

/-- One entry of the request sent to the helper: an object with the
item id and the base64-encoded payload (the encoding is modelled as the
identity on the opaque blob). -/
structure BulkRequestEntry (B : Type) where
  id : String
  payload : B
  deriving DecidableEq, Repr

namespace ObjCHelperService

/-- The msgs list built inside bulkDeserializeAttributedBody: one
{id, payload} entry per item whose body is not empty, in item order. -/
def bulkRequest {V B : Type} (bodies : List (MessageBatchItem V B)) :
    List (BulkRequestEntry B) :=
  bodies.filterMap (fun i => i.body.map (fun blob => { id := i.id, payload := blob }))

/-- ObjCHelperService.bulkDeserializeAttributedBody: build the request,
run the helper through the shell and parse its output (the exec
parameter, which models every fallible step inside the try block), and
on any failure log and return null.  The function never throws. -/
def bulkDeserializeAttributedBody {V B : Type} (bodies : List (MessageBatchItem V B))
    (exec : List (BulkRequestEntry B) → Except String (HelperResponse V)) :
    Option (HelperResponse V) :=
  match exec (bulkRequest bodies) with
  | Except.ok json => some json
  | Except.error _ => none

end ObjCHelperService

/-- MessageBatch.process as invoked through
ObjCHelperService.bulkDeserializeAttributedBody: the awaited call
always resolves (with the parsed response or null), never rejects. -/
def processViaService {V B : Type} (b : MessageBatch V B)
    (exec : List (BulkRequestEntry B) → Except String (HelperResponse V))
    (now : Nat) : MessageBatch V B :=
  b.process (Except.ok (ObjCHelperService.bulkDeserializeAttributedBody b.items exec)) now

/-- C10: through ObjCHelperService, bulkDeserializeAttributedBody never
throws — any internal failure becomes a null result — so a batch
processed via the service always ends COMPLETED with every item
terminal, and when the exec chain fails every previously non-terminal
item is failed with the no-response error rather than the batch ending
FAILED. -/
theorem C10_service_never_throws {V B : Type} (b : MessageBatch V B)
    (exec : List (BulkRequestEntry B) → Except String (HelperResponse V))
    (now : Nat) (hunf : ∀ i ∈ b.items, i.finished = false) :
    (processViaService b exec now).status = MessageBatchStatus.COMPLETED
    ∧ (∀ i ∈ (processViaService b exec now).items, i.finished = true)
    ∧ (∀ msg, exec (ObjCHelperService.bulkRequest b.items) = Except.error msg →
        (processViaService b exec now).items
          = b.items.map (fun i =>
              { i with finished := true,
                       outcome := some (PromiseOutcome.rejected noResponseErr) })) := by
  refine ⟨(process_ok_fields b _ now).2.1, ?_, ?_⟩
  · simp only [processViaService]
    rw [(process_ok_fields b (ObjCHelperService.bulkDeserializeAttributedBody b.items exec) now).1]
    intro i hi
    rw [List.mem_map] at hi
    obtain ⟨j, _, rfl⟩ := hi
    by_cases hc : j.isComplete = true
    · rw [if_pos hc]
      exact hc
    · simp only [if_neg hc]
      exact MessageBatchItem.fail_finished _ _
  · intro msg hmsg
    have hbulk : ObjCHelperService.bulkDeserializeAttributedBody b.items exec = none := by
      simp [ObjCHelperService.bulkDeserializeAttributedBody, hmsg]
    show (b.process (Except.ok (ObjCHelperService.bulkDeserializeAttributedBody b.items exec))
        now).items = _
    rw [hbulk, (process_ok_fields b none now).1]
    show (MessageBatch.completeFromResponse b.items []).map _ = _
    apply List.map_congr_left
    intro i hi
    have hf := hunf i hi
    simp [MessageBatchItem.isComplete, hf, MessageBatchItem.fail_of_unfinished i hf]

/-- Witness for C10 at a concrete batch and a failing exec chain. -/
theorem C10_service_never_throws_witness :
    let b : MessageBatch Nat Nat :=
      { id := "batch", status := MessageBatchStatus.PENDING,
        items := [MessageBatchItem.create "a" (some 1), MessageBatchItem.create "c" none],
        completedAt := none, timerActive := false, numListeners := 1,
        maxSize := 2, timeoutMs := 10 }
    let exec : List (BulkRequestEntry Nat) → Except String (HelperResponse Nat) :=
      fun _ => Except.error "shell failed"
    (processViaService b exec 70).status = MessageBatchStatus.COMPLETED
    ∧ (∀ i ∈ (processViaService b exec 70).items, i.finished = true)
    ∧ (∀ msg, exec (ObjCHelperService.bulkRequest b.items) = Except.error msg →
        (processViaService b exec 70).items
          = b.items.map (fun i =>
              { i with finished := true,
                       outcome := some (PromiseOutcome.rejected noResponseErr) })) :=
  C10_service_never_throws
    { id := "batch", status := MessageBatchStatus.PENDING,
      items := [MessageBatchItem.create "a" (some 1), MessageBatchItem.create "c" none],
      completedAt := none, timerActive := false, numListeners := 1,
      maxSize := 2, timeoutMs := 10 }
    (fun _ => Except.error "shell failed") 70 (by decide)

/-- UnarchiverBatcher from objCHelperService/UnarchiverBatcher.ts: the
dispatcher configuration and its batch cache. -/
structure UnarchiverBatcher (V B : Type) where
  batches : List (MessageBatch V B)
  maxBatchSize : Nat
  batchIntervalMs : Nat
  maxBatchCache : Nat
  deriving DecidableEq, Repr

namespace UnarchiverBatcher

variable {V B : Type}

/-- The isProcessing getter: some batch has status PROCESSING. -/
def isProcessing (st : UnarchiverBatcher V B) : Bool :=
  st.batches.any (fun b => decide (b.status = MessageBatchStatus.PROCESSING))

/-- The isFull getter: batches.length >= maxBatchCache. -/
def isFull (st : UnarchiverBatcher V B) : Bool :=
  decide (st.maxBatchCache ≤ st.batches.length)

/-- isBatchFinished: COMPLETED or FAILED. -/
def isBatchFinished (b : MessageBatch V B) : Bool :=
  decide (b.status = MessageBatchStatus.COMPLETED)
    || decide (b.status = MessageBatchStatus.FAILED)

/-- The body of add once a message is present: find the first FILLING
batch and addItem the message to it in place (getNextAvailableBatch
followed by batch.addItem).  Returns the updated cache, the id of the
batch the item went to, and the number of drain-pass listener
invocations the addItem triggered; none when no FILLING batch exists. -/
def addItemToFirstFilling : List (MessageBatch V B) → MessageBatchItem V B →
    Option (List (MessageBatch V B) × String × Nat)
  | [], _ => none
  | b :: rest, item =>
      if b.status = MessageBatchStatus.FILLING then
        some ((b.addItem item).1 :: rest, b.id, (b.addItem item).2)
      else
        (addItemToFirstFilling rest item).map (fun p => (b :: p.1, p.2.1, p.2.2))

/-- add from UnarchiverBatcher.ts: a null message returns null;
otherwise the message is added to the first FILLING batch, creating a
new batch (createNewBatch, registered with the single drain-pass
listener) when none exists.  The source carries a doc comment saying
the method throws when the batcher is full, but no capacity check is
performed: the model is a total function with no error outcome.  The
result is (new state, id of the receiving batch, listener invocation
count). -/
def add (st : UnarchiverBatcher V B) (message : Option (MessageBatchItem V B))
    (freshId : String) : UnarchiverBatcher V B × Option String × Nat :=
  match message with
  | none => (st, none, 0)
  | some item =>
      match addItemToFirstFilling st.batches item with
      | some p => ({ st with batches := p.1 }, some p.2.1, p.2.2)
      | none =>
          let batch : MessageBatch V B :=
            MessageBatch.create freshId st.maxBatchSize st.batchIntervalMs 1
          ({ st with batches := st.batches ++ [(batch.addItem item).1] },
           some batch.id, (batch.addItem item).2)

/-- pruneByAge: keep exactly the batches satisfying the filter
predicate isBatchFinished(batch) && now - batch.completedAt >
msSinceCompletion (a null completedAt coerces to 0). -/
def pruneByAge (st : UnarchiverBatcher V B) (now msSinceCompletion : Nat) :
    UnarchiverBatcher V B :=
  { st with batches := st.batches.filter (fun b =>
      isBatchFinished b && decide (msSinceCompletion < now - b.completedAt.getD 0)) }

/-- The descending-threshold loop of pruneBatches: prune, stop as soon
as the cache is no longer full. -/
def pruneBatchesAux (now : Nat) :
    UnarchiverBatcher V B → List Nat → UnarchiverBatcher V B
  | st, [] => st
  | st, tryMs :: rest =>
      let st1 := st.pruneByAge now tryMs
      if st1.isFull then pruneBatchesAux now st1 rest else st1

/-- pruneBatches: try the thresholds 30s, 10s, 5s, 0s. -/
def pruneBatches (st : UnarchiverBatcher V B) (now : Nat) : UnarchiverBatcher V B :=
  pruneBatchesAux now st [30000, 10000, 5000, 0]

/-- flush: call batch.flush() on every batch that is not finished, then
clear the batch cache.  The second component is the final state of the
batch objects callers may still hold references to. -/
def flush (st : UnarchiverBatcher V B) :
    UnarchiverBatcher V B × List (MessageBatch V B) :=
  ({ st with batches := [] },
   st.batches.map (fun b => if isBatchFinished b then b else b.flush "Batch was flushed"))

end UnarchiverBatcher

/-- C1 (code bug): a pruneByAge pass keeps exactly the finished batches
older than the threshold and removes everything else, the reverse of
its own doc comment.  At this input a FILLING batch holding a pending
item is evicted while a long-completed batch survives the pass. -/
theorem C1_pruneByAge_discards_nonterminal :
    let filling : MessageBatch Nat Nat :=
      { id := "live", status := MessageBatchStatus.FILLING,
        items := [MessageBatchItem.create "a" (some 1)],
        completedAt := none, timerActive := true, numListeners := 1,
        maxSize := 1000, timeoutMs := 10 }
    let done : MessageBatch Nat Nat :=
      { id := "old", status := MessageBatchStatus.COMPLETED, items := [],
        completedAt := some 0, timerActive := false, numListeners := 1,
        maxSize := 1000, timeoutMs := 10 }
    let st : UnarchiverBatcher Nat Nat :=
      { batches := [filling, done], maxBatchSize := 1000,
        batchIntervalMs := 10, maxBatchCache := 5 }
    (st.pruneByAge 100000 30000).batches = [done] := by
  decide

/-- C2 (code bug): add performs no capacity check — with the cache at
its ceiling (isFull) it neither prunes nor fails, it creates a new
batch beyond the ceiling and adds the item to it. -/
theorem C2_add_ignores_capacity :
    let doneItem : MessageBatchItem Nat Nat :=
      { id := "x", body := some 1, finished := true,
        outcome := some (PromiseOutcome.resolved (some 2)) }
    let done : MessageBatch Nat Nat :=
      { id := "old", status := MessageBatchStatus.COMPLETED, items := [doneItem],
        completedAt := some 0, timerActive := false, numListeners := 1,
        maxSize := 1000, timeoutMs := 10 }
    let st : UnarchiverBatcher Nat Nat :=
      { batches := [done], maxBatchSize := 1000,
        batchIntervalMs := 10, maxBatchCache := 1 }
    st.isFull = true
    ∧ (st.add (some (MessageBatchItem.create "m" (some 3))) "fresh").2.1 = some "fresh"
    ∧ (st.add (some (MessageBatchItem.create "m" (some 3))) "fresh").1.batches.length = 2
    ∧ (st.add (some (MessageBatchItem.create "m" (some 3))) "fresh").1.isFull = true := by
  decide

/-- Every pair drawn from zipping a list with its image under f pairs
an element with its image. -/
theorem mem_zip_map {α β : Type} {l : List α} {f : α → β} {p : α × β}
    (h : p ∈ l.zip (l.map f)) : p.1 ∈ l ∧ p.2 = f p.1 := by
  induction l with
  | nil => cases h
  | cons a rest ih =>
      simp only [List.map_cons, List.zip_cons_cons, List.mem_cons] at h
      rcases h with h | h
      · subst h
        exact ⟨List.mem_cons_self a rest, rfl⟩
      · have hr := ih h
        exact ⟨List.mem_cons_of_mem a hr.1, hr.2⟩

/-- C7: flush leaves the batch cache empty; on the batch objects the
callers still hold, every item that was non-terminal at the time of the
call is failed with the flush error and every already terminal item is
unchanged (finished batches are skipped by flush, which is harmless
because a finished batch holds only terminal items). -/
theorem C7_flush_fails_nonterminal {V B : Type} (st : UnarchiverBatcher V B)
    (hterm : ∀ b ∈ st.batches, UnarchiverBatcher.isBatchFinished b = true →
      ∀ i ∈ b.items, i.finished = true) :
    (st.flush).1.batches = []
    ∧ (st.flush).2.length = st.batches.length
    ∧ ∀ p ∈ st.batches.zip (st.flush).2,
        p.2.items.length = p.1.items.length
        ∧ ∀ q ∈ p.1.items.zip p.2.items,
            (q.1.finished = false → q.2 = q.1.fail "Batch was flushed")
            ∧ (q.1.finished = true → q.2 = q.1) := by
  refine ⟨rfl, by simp [UnarchiverBatcher.flush], ?_⟩
  intro p hp
  obtain ⟨hpmem, hpeq⟩ := mem_zip_map hp
  by_cases hfin : UnarchiverBatcher.isBatchFinished p.1 = true
  · rw [hpeq, if_pos hfin]
    refine ⟨rfl, ?_⟩
    intro q hq
    have hq2 : q.2 = q.1 ∧ q.1 ∈ p.1.items := by
      have := mem_zip_map (f := fun i => i) (by simpa [List.map_id] using hq)
      exact ⟨this.2, this.1⟩
    constructor
    · intro hfalse
      have := hterm p.1 hpmem hfin q.1 hq2.2
      rw [hfalse] at this
      cases this
    · intro _
      exact hq2.1
  · rw [hpeq, if_neg hfin]
    have hflush : (p.1.flush "Batch was flushed").items
        = p.1.items.map (fun i => if i.isComplete then i else i.fail "Batch was flushed") :=
      rfl
    constructor
    · rw [hflush, List.length_map]
    · intro q hq
      rw [hflush] at hq
      have hq2 := mem_zip_map hq
      constructor
      · intro hfalse
        rw [hq2.2, if_neg (by simp [MessageBatchItem.isComplete, hfalse])]
      · intro htrue
        rw [hq2.2, if_pos (by simp [MessageBatchItem.isComplete, htrue])]

/-- A concrete completed batch holding one terminal item, used by the
C7 witness. -/
def doneBatchC7 : MessageBatch Nat Nat :=
  { id := "old", status := MessageBatchStatus.COMPLETED,
    items := [{ id := "x", body := some 1, finished := true,
                outcome := some (PromiseOutcome.resolved (some 2)) }],
    completedAt := some 0, timerActive := false, numListeners := 1,
    maxSize := 2, timeoutMs := 10 }

/-- A concrete pending batch holding one pending and one terminal item,
used by the C7 witness. -/
def pendBatchC7 : MessageBatch Nat Nat :=
  { id := "live", status := MessageBatchStatus.PENDING,
    items := [MessageBatchItem.create "a" (some 1),
              { id := "y", body := some 1, finished := true,
                outcome := some (PromiseOutcome.resolved (some 9)) }],
    completedAt := none, timerActive := false, numListeners := 1,
    maxSize := 2, timeoutMs := 10 }

/-- A concrete dispatcher state holding both batches, used by the C7
witness. -/
def stateC7 : UnarchiverBatcher Nat Nat :=
  { batches := [doneBatchC7, pendBatchC7], maxBatchSize := 2,
    batchIntervalMs := 10, maxBatchCache := 5 }

/-- Witness for C7 at a concrete dispatcher holding one finished and
one pending batch. -/
theorem C7_flush_fails_nonterminal_witness :
    (stateC7.flush).1.batches = []
    ∧ (stateC7.flush).2.length = stateC7.batches.length
    ∧ ∀ p ∈ stateC7.batches.zip (stateC7.flush).2,
        p.2.items.length = p.1.items.length
        ∧ ∀ q ∈ p.1.items.zip p.2.items,
            (q.1.finished = false → q.2 = q.1.fail "Batch was flushed")
            ∧ (q.1.finished = true → q.2 = q.1) :=
  C7_flush_fails_nonterminal stateC7 (by decide)

/-- A suspension point of one processNextBatch invocation:
awaitingHelper is an invocation suspended inside await batch.process at
the helper call for the batch at the given cache index, waitingInterval
one suspended at await waitMs, done a finished invocation. -/
inductive DrainPhase where
  | awaitingHelper (bidx : Nat)
  | waitingInterval
  | done
  deriving DecidableEq, Repr

/-- Dispatcher state together with the suspended processNextBatch
invocations of the single-threaded event loop. -/
structure DispatcherState (V B : Type) where
  batcher : UnarchiverBatcher V B
  threads : List DrainPhase
  deriving DecidableEq, Repr

/-- Apply f at one index, leaving every other position and the length
unchanged. -/
def updateAt {α : Type} : List α → Nat → (α → α) → List α
  | [], _, _ => []
  | a :: rest, 0, f => f a :: rest
  | a :: rest, Nat.succ m, f => a :: updateAt rest m f

/-- The synchronous part of processNextBatch from entry to its first
suspension: getNextPendingBatch; if wasProcessing and there is no
pending batch, prune when full and return; if another batch is
PROCESSING and this is not a continuation, or there is no pending
batch, return; otherwise run batch.process synchronously up to
status := PROCESSING and suspend at the helper await (recorded as a new
awaitingHelper suspension). -/
def drainPass {V B : Type} (wasProcessing : Bool) (st : DispatcherState V B)
    (now : Nat) : DispatcherState V B :=
  match st.batcher.batches.findIdx?
      (fun b => decide (b.status = MessageBatchStatus.PENDING)) with
  | none =>
      if wasProcessing then
        (if st.batcher.isFull then
          { st with batcher := st.batcher.pruneBatches now }
        else st)
      else st
  | some bidx =>
      if st.batcher.isProcessing && !wasProcessing then st
      else
        { batcher := { st.batcher with
            batches := updateAt st.batcher.batches bidx MessageBatch.processEnter },
          threads := st.threads ++ [DrainPhase.awaitingHelper bidx] }

/-- Scheduler events of the dispatcher model.  batchReady: a batch
reaches PENDING and its registered listener synchronously starts
processNextBatch (a drain pass with wasProcessing = false).
helperSettled: the helper call the given suspension is awaiting
settles; the tail of batch.process runs and the invocation suspends at
waitMs.  intervalElapsed: a waitMs suspension elapses and the
invocation continues as processNextBatch(true). -/
inductive DispatcherEvent (V B : Type) where
  | batchReady (batch : MessageBatch V B) (now : Nat)
  | helperSettled (tid : Nat)
      (outcome : Except String (Option (HelperResponse V))) (now : Nat)
  | intervalElapsed (tid : Nat) (now : Nat)

/-- One scheduler step of the dispatcher model. -/
def step {V B : Type} (st : DispatcherState V B) :
    DispatcherEvent V B → DispatcherState V B
  | DispatcherEvent.batchReady batch now =>
      drainPass false
        { st with batcher :=
            { st.batcher with batches := st.batcher.batches ++ [batch] } } now
  | DispatcherEvent.helperSettled tid outcome now =>
      match st.threads.get? tid with
      | some (DrainPhase.awaitingHelper bidx) =>
          { batcher := { st.batcher with
              batches := updateAt st.batcher.batches bidx
                (fun b => b.processFinish outcome now) },
            threads := updateAt st.threads tid (fun _ => DrainPhase.waitingInterval) }
      | _ => st
  | DispatcherEvent.intervalElapsed tid now =>
      match st.threads.get? tid with
      | some DrainPhase.waitingInterval =>
          drainPass true
            { st with threads := updateAt st.threads tid (fun _ => DrainPhase.done) } now
      | _ => st

/-- Run the dispatcher model over a list of events. -/
def run {V B : Type} (init : DispatcherState V B)
    (events : List (DispatcherEvent V B)) : DispatcherState V B :=
  events.foldl step init

/-- How many cached batches are PROCESSING. -/
def countProcessing {V B : Type} (st : DispatcherState V B) : Nat :=
  st.batcher.batches.countP (fun b => decide (b.status = MessageBatchStatus.PROCESSING))

/-- A batch as handed to batchReady: PENDING with one pending item,
its fill-deadline timer cleared by markReadyForProcessing. -/
def readyBatchC4 (bid iid : String) : MessageBatch Nat Nat :=
  { id := bid, status := MessageBatchStatus.PENDING,
    items := [MessageBatchItem.create iid (some 0)],
    completedAt := none, timerActive := false, numListeners := 1,
    maxSize := 1, timeoutMs := 10 }

/-- The empty initial dispatcher state for the C4 trace. -/
def initC4 : DispatcherState Nat Nat :=
  { batcher := { batches := [], maxBatchSize := 1, batchIntervalMs := 10,
                 maxBatchCache := 5 },
    threads := [] }

/-- The event sequence that overlaps two batches: A is processed and
settles; during the inter-batch wait of that invocation B becomes
PENDING and a fresh drain pass claims it; C becomes PENDING but the
fresh pass guard blocks it; then the continuation pass resumes and,
because wasProcessing = true skips the isProcessing check, claims C
while B is still in flight. -/
def traceC4 : List (DispatcherEvent Nat Nat) :=
  [DispatcherEvent.batchReady (readyBatchC4 "A" "a") 0,
   DispatcherEvent.helperSettled 0 (Except.ok none) 10,
   DispatcherEvent.batchReady (readyBatchC4 "B" "b") 10,
   DispatcherEvent.batchReady (readyBatchC4 "C" "c") 10,
   DispatcherEvent.intervalElapsed 0 20]

/-- C4 counterexample: a reachable schedule of submissions and timer
firings after which two batches are PROCESSING at the same instant —
the continuation drain pass (wasProcessing = true) claims a pending
batch without re-checking isProcessing. -/
theorem C4_counterexample :
    ((run initC4 traceC4).batcher.batches.map MessageBatch.status)
      = [MessageBatchStatus.COMPLETED, MessageBatchStatus.PROCESSING,
         MessageBatchStatus.PROCESSING]
    ∧ countProcessing (run initC4 traceC4) = 2 := by
  decide

/-- C4 amended: a drain pass that is not a continuation
(wasProcessing = false) and observes another batch PROCESSING does
nothing; only the continuation pass after the inter-batch wait skips
the check, so strict serialization can be violated exactly when a
fresh pass starts during that wait. -/
theorem C4_amended_drain_guard {V B : Type} (st : DispatcherState V B) (now : Nat)
    (h : st.batcher.isProcessing = true) :
    drainPass false st now = st := by
  rcases hfind : st.batcher.batches.findIdx?
      (fun b => decide (b.status = MessageBatchStatus.PENDING)) with _ | bidx
  · simp [drainPass, hfind]
  · simp [drainPass, hfind, h]

/-- A batch currently in flight to the helper, used by the C4 witness. -/
def procBatchC4 : MessageBatch Nat Nat :=
  { id := "P", status := MessageBatchStatus.PROCESSING,
    items := [MessageBatchItem.create "p" (some 0)],
    completedAt := none, timerActive := false, numListeners := 1,
    maxSize := 1, timeoutMs := 10 }

/-- A dispatcher state with one batch in flight and one pending batch,
used by the C4 witness. -/
def stateC4w : DispatcherState Nat Nat :=
  { batcher := { batches := [procBatchC4, readyBatchC4 "Q" "q"],
                 maxBatchSize := 1, batchIntervalMs := 10, maxBatchCache := 5 },
    threads := [DrainPhase.awaitingHelper 0] }

/-- Witness for the amended C4: with a batch in flight and another
pending, a non-continuation drain pass leaves the state unchanged. -/
theorem C4_amended_drain_guard_witness :
    stateC4w.batcher.isProcessing = true ∧ drainPass false stateC4w 0 = stateC4w :=
  ⟨by decide, C4_amended_drain_guard stateC4w 0 (by decide)⟩

/-- TaskData from swiftHelperService/index.ts: a correlation-table
entry.  The resolve/reject wrappers installed by createNewTask set
isComplete and settle the task promise; settling an already settled
promise keeps the first settlement but isComplete is written again. -/
structure TaskData (V : Type) where
  id : String
  isComplete : Bool
  outcome : Option (PromiseOutcome V)
  deriving DecidableEq, Repr

namespace TaskData

variable {V : Type}

/-- createNewTask: fresh id, promise pending. -/
def create (id : String) : TaskData V :=
  { id := id, isComplete := false, outcome := none }

/-- The resolve wrapper: isComplete := true, then resolve the promise
(a no-op when already settled). -/
def resolve (t : TaskData V) (value : Option V) : TaskData V :=
  { t with isComplete := true,
           outcome := some ((t.outcome).getD (PromiseOutcome.resolved value)) }

/-- The reject wrapper: isComplete := true, then reject the promise
(a no-op when already settled). -/
def reject (t : TaskData V) (reason : String) : TaskData V :=
  { t with isComplete := true,
           outcome := some ((t.outcome).getD (PromiseOutcome.rejected reason)) }

end TaskData

/-- One parsed record from the helper stdout stream: the id field may
be absent; data is the payload routed to the matching waiter. -/
structure HelperStdoutRecord (V : Type) where
  id : Option String
  data : Option V
  deriving DecidableEq, Repr

/-- tasks.find(task => task.id === msg.id) followed by an in-place
task.resolve: only the first matching task changes; the list is not
filtered. -/
def resolveFirstTask {V : Type} : List (TaskData V) → String → Option V →
    List (TaskData V)
  | [], _, _ => []
  | t :: rest, mid, d =>
      if t.id = mid then t.resolve d :: rest
      else t :: resolveFirstTask rest mid d

namespace SwiftHelperService

/-- The stdout data handler installed by runSwiftHelper (the evolution
that resolves with the data field): a line that fails to parse is
logged and dropped (none), a record without an id field is dropped,
and a record whose id matches a task resolves that task with the
record data field.  No branch removes the task from the tasks list. -/
def handleStdoutRecord {V : Type} (tasks : List (TaskData V))
    (msg : Option (HelperStdoutRecord V)) : List (TaskData V) :=
  match msg with
  | none => tasks
  | some m =>
      match m.id with
      | none => tasks
      | some mid => resolveFirstTask tasks mid m.data

end SwiftHelperService

/-- C9 counterexample: a complete record whose id matches the single
outstanding task resolves that task with the record data field, but
the entry is NOT removed from the correlation table — the tasks list
still holds the (now settled) entry with id "a" afterwards. -/
theorem C9_counterexample :
    SwiftHelperService.handleStdoutRecord [TaskData.create (V := Nat) "a"]
        (some { id := some "a", data := some 7 })
      = [{ id := "a", isComplete := true,
           outcome := some (PromiseOutcome.resolved (some 7)) }]
    ∧ (SwiftHelperService.handleStdoutRecord [TaskData.create (V := Nat) "a"]
        (some { id := some "a", data := some 7 })).length = 1 := by
  decide

theorem map_task_step_of_not_mem {V : Type} (l : List (TaskData V)) (mid : String)
    (d : Option V) (h : mid ∉ l.map TaskData.id) :
    l.map (fun t => if t.id = mid then t.resolve d else t) = l := by
  induction l with
  | nil => rfl
  | cons t rest ih =>
      simp only [List.map_cons, List.mem_cons, not_or] at h
      simp only [List.map_cons]
      rw [if_neg (fun hc => h.1 hc.symm), ih h.2]

theorem resolveFirstTask_eq_map {V : Type} (l : List (TaskData V)) (mid : String)
    (d : Option V) (hnd : (l.map TaskData.id).Nodup) :
    resolveFirstTask l mid d
      = l.map (fun t => if t.id = mid then t.resolve d else t) := by
  induction l with
  | nil => rfl
  | cons t rest ih =>
      simp only [List.map_cons, List.nodup_cons] at hnd
      by_cases h : t.id = mid
      · simp only [resolveFirstTask, if_pos h, List.map_cons]
        rw [map_task_step_of_not_mem rest mid d (h ▸ hnd.1)]
      · simp only [resolveFirstTask, if_neg h, List.map_cons]
        rw [ih hnd.2]

/-- C9 amended: a complete record whose id matches an outstanding
correlation-table entry resolves that entry (and only that entry)
with the record data field, but the entry stays in the tasks list —
the stdout handler removes nothing, so the table keeps the settled
entry and its length is unchanged. -/
theorem C9_amended_resolve_without_removal {V : Type} (tasks : List (TaskData V))
    (mid : String) (d : Option V) (hnd : (tasks.map TaskData.id).Nodup) :
    SwiftHelperService.handleStdoutRecord tasks (some { id := some mid, data := d })
      = tasks.map (fun t => if t.id = mid then t.resolve d else t)
    ∧ (SwiftHelperService.handleStdoutRecord tasks
        (some { id := some mid, data := d })).length = tasks.length := by
  have heq : SwiftHelperService.handleStdoutRecord tasks
      (some { id := some mid, data := d })
      = tasks.map (fun t => if t.id = mid then t.resolve d else t) :=
    resolveFirstTask_eq_map tasks mid d hnd
  exact ⟨heq, by rw [heq, List.length_map]⟩

/-- Witness for the amended C9 at a two-entry table. -/
theorem C9_amended_resolve_without_removal_witness :
    SwiftHelperService.handleStdoutRecord
        [TaskData.create (V := Nat) "a", TaskData.create (V := Nat) "c"]
        (some { id := some "a", data := some 3 })
      = [TaskData.create (V := Nat) "a", TaskData.create (V := Nat) "c"].map
          (fun t => if t.id = "a" then t.resolve (some 3) else t)
    ∧ (SwiftHelperService.handleStdoutRecord
        [TaskData.create (V := Nat) "a", TaskData.create (V := Nat) "c"]
        (some { id := some "a", data := some 3 })).length
      = [TaskData.create (V := Nat) "a", TaskData.create (V := Nat) "c"].length :=
  C9_amended_resolve_without_removal
    [TaskData.create "a", TaskData.create "c"] "a" (some 3) (by decide)

end BlueBubbles
